import Mathlib

/-!
Shallow embedding of the MQTT connection manager in `src/mqtt.py`
(class `MQTTClient`).

The wrapper delegates transport work to a paho-mqtt `Client` object.
The wrapper's own observable state is the flags it reads and writes:
`self.connected` (set in `_on_connect` / `_on_disconnect`) together with
the transport's network-socket state, which the underlying paho client
consults.  Calls into the paho client (`client.connect`, `client.publish`,
`client.subscribe`, `client.reconnect`, `client.disconnect`,
`client.loop_start`, `client.loop_stop`) and into `time.sleep` are modelled
as an explicit effect trace, so the theorems can count frames, reconnect
attempts and backoff sleeps.  Logging calls have no observable effect on
the contract and are not traced.

The paho transport itself is external to the repository; where an
operation's result depends on it we either quantify over the transport's
answer (`TransportOutcome`) or use the documented paho behaviour
(`pahoSub`, `pahoPub`): a zero-length topic makes the call raise
`ValueError("Invalid topic.")` before any frame is sent; otherwise
`subscribe` is accepted whenever the client owns a network socket
(return code `MQTT_ERR_SUCCESS`) and rejected with `MQTT_ERR_NO_CONN`
when it does not — paho never consults the wrapper's `self.connected`
flag — and `publish` answers with whatever outcome the broker link
yields.
-/

/-- Result codes returned by the paho transport
(`mqtt.MQTT_ERR_SUCCESS` / `mqtt.MQTT_ERR_NO_CONN`). -/
inductive MqttErr where
  | success
  | noConn
  deriving DecidableEq, Repr

/-- Outcome of one call into the underlying transport: a normal return
with a result code, or a raised exception (caught by the wrapper's
`try/except` blocks). -/
inductive TransportOutcome where
  | ok (rc : MqttErr)
  | raise (e : String)
  deriving DecidableEq, Repr

/-- The calls `MQTTClient` makes into the paho client and into
`time.sleep`, in program order. -/
inductive Effect where
  | connectCall (host : String) (port keepalive : Nat)
  | loopStartCall
  | loopStopCall
  | disconnectCall
  | pubCall (topic message : String)
  | subCall (topic : String)
  | reconnectCall
  | sleepCall (seconds : Nat)
  deriving DecidableEq, Repr

/-- State of one `MQTTClient` instance: the constructor arguments
(`broker`, `port`, `topic`, immutable afterwards), the wrapper's
`self.connected` flag, and whether the underlying paho client currently
owns a network socket (`sockOpen`).  `connected` becomes true only when
the CONNACK callback `_on_connect` runs with `rc == 0`; `sockOpen`
becomes true as soon as the network-level `client.connect` /
`client.reconnect` succeeds, so `sockOpen = true, connected = false` is
the connecting window. -/
structure MQTTClient where
  broker : String
  port : Nat
  topic : String
  connected : Bool
  sockOpen : Bool
  deriving DecidableEq, Repr

/-- A freshly constructed client with the constructor's default
arguments: `broker="124.70.54.142"`, `port=1883`, `topic="test_A"`,
`self.connected = False`, no socket yet. -/
def defaultClient : MQTTClient :=
  { broker := "124.70.54.142", port := 1883, topic := "test_A",
    connected := false, sockOpen := false }

/-- `topic if topic else self.topic`: the effective topic of `publish` and
`subscribe`.  Python truth-value testing makes both `None` and the empty
string fall back to `self.topic`. -/
def effTopic (s : MQTTClient) (topic : Option String) : String :=
  match topic with
  | none => s.topic
  | some t => if t = "" then s.topic else t

/-- Documented paho behaviour of `client.subscribe` on the topic it is
handed: a zero-length topic raises `ValueError("Invalid topic.")` before
any frame is sent; a valid topic is accepted (`MQTT_ERR_SUCCESS`)
whenever the client owns a network socket and rejected with
`MQTT_ERR_NO_CONN` otherwise.  The wrapper's `self.connected` flag is
never consulted. -/
def pahoSub (s : MQTTClient) (t : String) : TransportOutcome :=
  if t = "" then .raise "Invalid topic."
  else .ok (if s.sockOpen then .success else .noConn)

/-- Documented paho behaviour of `client.publish` on the topic it is
handed: a zero-length topic raises `ValueError("Invalid topic.")` before
any frame is sent; on a valid topic the outcome `ans` is whatever the
broker link yields. -/
def pahoPub (t : String) (ans : TransportOutcome) : TransportOutcome :=
  if t = "" then .raise "Invalid topic." else ans

/-- `MQTTClient.publish` (src/mqtt.py lines 82-107): rejects immediately
when `self.connected` is false; otherwise calls `client.publish` on the
effective topic and maps its result code (or a raised exception) to a
boolean.  `tr` is the transport's answer to the `client.publish` call. -/
def publish (s : MQTTClient) (tr : TransportOutcome) (topic : Option String)
    (message : String) : Bool × List Effect :=
  if s.connected = false then (false, [])
  else
    let t := effTopic s topic
    match tr with
    | .ok rc => (if rc = .success then true else false, [.pubCall t message])
    | .raise _ => (false, [.pubCall t message])

/-- `MQTTClient.subscribe` (src/mqtt.py lines 109-129): no state check of
its own — it always calls `client.subscribe` on the effective topic and
maps the transport's result code (or a raised exception) to a boolean.
`tr` is the transport's answer to the `client.subscribe` call. -/
def subscribe (s : MQTTClient) (tr : TransportOutcome) (topic : Option String) :
    Bool × List Effect :=
  let t := effTopic s topic
  match tr with
  | .ok rc => (if rc = .success then true else false, [.subCall t])
  | .raise _ => (false, [.subCall t])

/-- `subscribe` instantiated with the paho transport model `pahoSub`,
answering for the effective topic the wrapper hands it. -/
def subscribeP (s : MQTTClient) (topic : Option String) : Bool × List Effect :=
  subscribe s (pahoSub s (effTopic s topic)) topic

/-- `publish` instantiated with the paho transport model `pahoPub`:
`ans` is the broker link's answer to a valid publish call. -/
def publishP (s : MQTTClient) (ans : TransportOutcome) (topic : Option String)
    (message : String) : Bool × List Effect :=
  publish s (pahoPub (effTopic s topic) ans) topic message

/-- `MQTTClient._on_connect` (src/mqtt.py lines 31-39): on `rc == 0` set
`self.connected = True` and call `self.subscribe(self.topic)` (return
value ignored); on any other `rc` only log — state unchanged, no calls. -/
def onConnect (s : MQTTClient) (rc : Nat) : MQTTClient × List Effect :=
  if rc = 0 then
    let s' : MQTTClient := { s with connected := true }
    (s', (subscribeP s' (some s'.topic)).2)
  else
    (s, [])

/-- What `_on_message` reports for one inbound message. -/
inductive MsgEvent where
  | received (topic message : String)
  | decodeError (e : String)
  deriving DecidableEq, Repr

/-- `MQTTClient._on_message` (src/mqtt.py lines 41-48): decodes the
payload inside `try/except`; a decode failure is logged as an error event
and never propagates.  `dec` is the outcome of `msg.payload.decode()`. -/
def onMessage (s : MQTTClient) (topic : String) (dec : Except String String) :
    MQTTClient × MsgEvent :=
  match dec with
  | .ok m => (s, .received topic m)
  | .error e => (s, .decodeError e)

/-- `MQTTClient.connect` (src/mqtt.py lines 57-65): unconditionally calls
`client.connect(broker, port, 60)` then `client.loop_start()` inside
`try/except`; returns `False` exactly when the network-level connect call
raises, `True` otherwise.  No state flag is consulted or written by the
wrapper itself; a successful network connect gives the paho client a
socket.  `netOk` is whether `client.connect` raises no exception. -/
def connect (s : MQTTClient) (netOk : Bool) : Bool × MQTTClient × List Effect :=
  if netOk then
    (true, { s with sockOpen := true },
      [.connectCall s.broker s.port 60, .loopStartCall])
  else
    (false, s, [.connectCall s.broker s.port 60])

/-- State change of the `_on_disconnect` callback (src/mqtt.py lines
50-52): `self.connected = False`; the transport socket is gone by the
time the callback fires. -/
def onDisconnectState (s : MQTTClient) : MQTTClient :=
  { s with connected := false, sockOpen := false }

/-- `MQTTClient.disconnect` (src/mqtt.py lines 77-80): `client.loop_stop()`
then `client.disconnect()`.  When the client owns a socket, the explicit
disconnect closes it and the `_on_disconnect` callback fires with
`rc = 0`, so `self.connected` becomes false and no reconnect loop starts;
without a socket paho returns `MQTT_ERR_NO_CONN` and no callback fires. -/
def disconnect (s : MQTTClient) : MQTTClient × List Effect :=
  if s.sockOpen then
    (onDisconnectState s, [.loopStopCall, .disconnectCall])
  else
    (s, [.loopStopCall, .disconnectCall])

/-- `MQTTClient._reconnect` (src/mqtt.py lines 67-75):
`while not self.connected: try client.reconnect(); sleep(5)
except: log; sleep(5)`.  `env i` tells whether the `i`-th
`client.reconnect` attempt succeeds end to end (socket re-established and
its CONNACK processed, which sets `self.connected` through `_on_connect`);
a failed attempt raises and changes nothing.  `fuel` bounds how many
iterations we unfold: the result is `none` when the loop is still running
after `fuel` iterations, `some` of the final state when the guard
`not self.connected` has failed.  Either way the loop guard is the only
exit: no flag set by `disconnect()` is ever read. -/
def reconnectLoop (env : Nat → Bool) :
    Nat → Nat → MQTTClient → Option MQTTClient × List Effect
  | 0, _, s => if s.connected then (some s, []) else (none, [])
  | fuel + 1, i, s =>
    if s.connected then (some s, [])
    else
      let s' : MQTTClient :=
        if env i then { s with connected := true, sockOpen := true } else s
      let r := reconnectLoop env fuel (i + 1) s'
      (r.1, .reconnectCall :: .sleepCall 5 :: r.2)

/-- `MQTTClient._on_disconnect` (src/mqtt.py lines 50-55): set
`self.connected = False`; on an unsolicited disconnection (`rc != 0`)
enter the `_reconnect` loop, on a solicited one (`rc == 0`) do nothing
further. -/
def onDisconnect (env : Nat → Bool) (fuel : Nat) (s : MQTTClient) (rc : Nat) :
    Option MQTTClient × List Effect :=
  if rc = 0 then (some (onDisconnectState s), [])
  else reconnectLoop env fuel 0 (onDisconnectState s)

/-- A client in the connecting window: the network-level connect has
succeeded (socket owned) but no successful CONNACK has been processed, so
`self.connected` is still false. -/
def cConnecting : MQTTClient :=
  { broker := "124.70.54.142", port := 1883, topic := "test_A",
    connected := false, sockOpen := true }

/-- A fully connected client. -/
def cConnected : MQTTClient :=
  { broker := "124.70.54.142", port := 1883, topic := "test_A",
    connected := true, sockOpen := true }

/-- A connected client whose configured default topic is the empty
string (the constructor accepts any `topic` argument). -/
def cEmptyTopic : MQTTClient :=
  { broker := "124.70.54.142", port := 1883, topic := "",
    connected := true, sockOpen := true }

/-- If the loop guard `not self.connected` already fails, `_reconnect`
makes no attempt at all. -/
theorem reconnectLoop_of_connected (env : Nat → Bool) (fuel i : Nat)
    (s : MQTTClient) (h : s.connected = true) :
    reconnectLoop env fuel i s = (some s, []) := by
  cases fuel <;> simp [reconnectLoop, h]

/-- The `_reconnect` loop exits within `fuel` iterations exactly when the
guard already fails or some attempt within `fuel` succeeds. -/
theorem reconnectLoop_isSome (env : Nat → Bool) :
    ∀ (fuel i : Nat) (s : MQTTClient), s.connected = false →
      ((reconnectLoop env fuel i s).1.isSome = true ↔
        ∃ j, j < fuel ∧ env (i + j) = true) := by
  intro fuel
  induction fuel with
  | zero =>
    intro i s h
    simp [reconnectLoop, h]
  | succ n ih =>
    intro i s h
    by_cases he : env i = true
    · rw [show reconnectLoop env (n + 1) i s =
        ((reconnectLoop env n (i + 1)
            { s with connected := true, sockOpen := true }).1,
          .reconnectCall :: .sleepCall 5 ::
            (reconnectLoop env n (i + 1)
              { s with connected := true, sockOpen := true }).2) by
          simp [reconnectLoop, h, he]]
      rw [reconnectLoop_of_connected env n (i + 1) _ rfl]
      simp only [Option.isSome_some, true_iff]
      exact ⟨0, Nat.succ_pos n, by simpa using he⟩
    · have he' : env i = false := by simpa using he
      rw [show reconnectLoop env (n + 1) i s =
        ((reconnectLoop env n (i + 1) s).1,
          .reconnectCall :: .sleepCall 5 ::
            (reconnectLoop env n (i + 1) s).2) by
          simp [reconnectLoop, h, he']]
      rw [show ((reconnectLoop env n (i + 1) s).1,
          (.reconnectCall : Effect) :: .sleepCall 5 ::
            (reconnectLoop env n (i + 1) s).2).1 =
          (reconnectLoop env n (i + 1) s).1 from rfl]
      rw [ih (i + 1) s h]
      constructor
      · rintro ⟨j, hj, hje⟩
        refine ⟨j + 1, by omega, ?_⟩
        have hx : i + (j + 1) = i + 1 + j := by omega
        rw [hx]; exact hje
      · rintro ⟨j, hj, hje⟩
        cases j with
        | zero =>
          exfalso
          rw [Nat.add_zero] at hje
          rw [he'] at hje
          exact Bool.false_ne_true hje
        | succ k =>
          refine ⟨k, by omega, ?_⟩
          have hx : i + 1 + k = i + (k + 1) := by omega
          rw [hx]; exact hje

/-- Every sleep the `_reconnect` loop performs is the fixed 5-unit
backoff. -/
theorem reconnectLoop_sleep (env : Nat → Bool) :
    ∀ (fuel i : Nat) (s : MQTTClient) (n : Nat),
      Effect.sleepCall n ∈ (reconnectLoop env fuel i s).2 → n = 5 := by
  intro fuel
  induction fuel with
  | zero =>
    intro i s n hmem
    by_cases h : s.connected = true <;> simp [reconnectLoop, h] at hmem
  | succ m ih =>
    intro i s n hmem
    by_cases h : s.connected = true
    · simp [reconnectLoop, h] at hmem
    · have h' : s.connected = false := by simpa using h
      simp only [reconnectLoop, h', Bool.false_eq_true, if_false] at hmem
      rcases List.mem_cons.mp hmem with h1 | hmem'
      · exact absurd h1 (by simp)
      · rcases List.mem_cons.mp hmem' with h2 | hmem'' 
        · exact (Effect.sleepCall.injEq n 5).mp h2
        · exact ih (i + 1) _ n hmem''

/-- Claim C1 (counterexample): in the connecting window the client is not
Connected (`self.connected = false`), yet `subscribe` reaches the
transport and returns success — it does not fail with a not-connected
error in every non-Connected state. -/
theorem C1_counterexample :
    cConnecting.connected = false ∧
      (subscribeP cConnecting (some "t")).1 = true := by
  decide

/-- Claim C1 (amended): `publish` returns a failure result and makes no
transport call whenever `self.connected` is false, for every transport
behaviour and input; `subscribe` performs no connected-state check of its
own — under the paho transport model it fails when the effective topic is
empty (the raised `ValueError` is caught) or the socket is closed, and
otherwise its result equals the socket state, so it succeeds in the
connecting window even though the client is not Connected. -/
theorem C1_amended (s : MQTTClient) (tr : TransportOutcome) (t : Option String)
    (m : String) (h : s.connected = false) :
    publish s tr t m = (false, []) ∧
      (subscribeP s t).1 = if effTopic s t = "" then false else s.sockOpen := by
  constructor
  · simp [publish, h]
  · by_cases he : effTopic s t = ""
    · simp [subscribeP, subscribe, pahoSub, he]
    · cases hs : s.sockOpen <;> simp [subscribeP, subscribe, pahoSub, he, hs]

/-- Claim C1 witness: the amended statement at a concrete connecting-state
client with a valid topic. -/
theorem C1_amended_witness :
    publish cConnecting (.ok .success) (some "t") "m" = (false, []) ∧
      (subscribeP cConnecting (some "t")).1 =
        if effTopic cConnecting (some "t") = "" then false
        else cConnecting.sockOpen :=
  C1_amended cConnecting (.ok .success) (some "t") "m" rfl

/-- Claim C2 (counterexample): with default topic "test_A", a subscribe
to "other" succeeds while connected; after link loss and a successful
reconnection the `_on_connect` callback issues exactly one subscribe
call, for "test_A" only — the earlier "other" subscription is not
replayed, so no subscription registry survives the disconnect. -/
theorem C2_counterexample :
    (subscribeP cConnected (some "other")).1 = true ∧
      (onConnect cConnecting 0).2 = [Effect.subCall "test_A"] ∧
      Effect.subCall "other" ∉ (onConnect cConnecting 0).2 := by
  refine ⟨by decide, by decide, by decide⟩

/-- Claim C2 (amended): on every successful connection acknowledgment the
client issues exactly one subscribe call, and it is for the configured
default topic; no other previously subscribed topic is replayed — the
code keeps no registry of subscribed topics. -/
theorem C2_amended (s : MQTTClient) :
    onConnect s 0 = ({ s with connected := true }, [Effect.subCall s.topic]) := by
  by_cases h : s.topic = "" <;>
    simp [onConnect, subscribeP, subscribe, pahoSub, effTopic, h]

/-- Claim C3 (code evaluated at the failing input): a client sits in the
`_reconnect` loop (`connected = false`); `disconnect()` is issued and its
`rc = 0` callback lands, yet the next loop iteration still calls
`client.reconnect` and sleeps the 5-unit backoff — the loop guard
`while not self.connected` reads nothing that `disconnect()` sets, so the
loop keeps attempting. -/
theorem C3_theorem :
    (reconnectLoop (fun _ => false) 1 0 (disconnect cConnecting).1).1 = none ∧
      (reconnectLoop (fun _ => false) 1 0 (disconnect cConnecting).1).2 =
        [Effect.reconnectCall, Effect.sleepCall 5] := by
  decide

/-- Claim C4 (counterexample): in the connecting window (attempt already
in flight, not yet Connected), a second `connect()` does not fail fast:
it returns `True` and dispatches another transport connect call. -/
theorem C4_counterexample :
    cConnecting.connected = false ∧ cConnecting.sockOpen = true ∧
      (connect cConnecting true).1 = true ∧
      Effect.connectCall "124.70.54.142" 1883 60 ∈
        (connect cConnecting true).2.2 := by
  decide

/-- Claim C4 (amended): `connect()` performs no state check at all — from
every state it dispatches a transport connect call and returns `True`
exactly when the network-level call raises no exception; when the call
raises, it returns `False` and leaves the state unchanged.  It never
fails fast with an already-connecting error. -/
theorem C4_amended (s : MQTTClient) (netOk : Bool) :
    (connect s netOk).1 = netOk ∧
      (connect s netOk).2.2 =
        Effect.connectCall s.broker s.port 60 ::
          (if netOk then [Effect.loopStartCall] else []) ∧
      (connect s false).2.1 = s := by
  cases netOk <;> simp [connect]

/-- Claim C5 (counterexample): after an explicit `disconnect()` with every
subsequent attempt failing, the reconnect loop neither terminates nor
stops attempting — two more iterations perform two more reconnect calls —
refuting that the loop terminates when a `disconnect()` is issued. -/
theorem C5_counterexample :
    (reconnectLoop (fun _ => false) 2 0 (disconnect cConnected).1).1 = none ∧
      (reconnectLoop (fun _ => false) 2 0 (disconnect cConnected).1).2 =
        [Effect.reconnectCall, Effect.sleepCall 5,
          Effect.reconnectCall, Effect.sleepCall 5] := by
  decide

/-- Claim C5 (amended): the reconnect loop waits the fixed 5-unit backoff
between attempts and retries indefinitely (no attempt cap, no growing
backoff); it exits exactly when a reconnection attempt succeeds — an
explicit `disconnect()` does not terminate it — and it is entered only on
an unsolicited disconnection (`rc = 0` spawns no attempt). -/
theorem C5_amended (env : Nat → Bool) (fuel i : Nat) (s : MQTTClient)
    (h : s.connected = false) :
    ((reconnectLoop env fuel i s).1.isSome = true ↔
        ∃ j, j < fuel ∧ env (i + j) = true) ∧
      (∀ n, Effect.sleepCall n ∈ (reconnectLoop env fuel i s).2 → n = 5) ∧
      onDisconnect env fuel s 0 = (some (onDisconnectState s), []) := by
  exact ⟨reconnectLoop_isSome env fuel i s h,
    fun n hn => reconnectLoop_sleep env fuel i s n hn,
    by simp [onDisconnect]⟩

/-- Claim C5 witness: the amended statement at a concrete client with an
immediately successful attempt. -/
theorem C5_amended_witness :
    ((reconnectLoop (fun _ => true) 1 0 cConnecting).1.isSome = true ↔
        ∃ j, j < 1 ∧ (fun _ => true : Nat → Bool) (0 + j) = true) ∧
      (∀ n, Effect.sleepCall n ∈
          (reconnectLoop (fun _ => true) 1 0 cConnecting).2 → n = 5) ∧
      onDisconnect (fun _ => true) 1 cConnecting 0 =
        (some (onDisconnectState cConnecting), []) :=
  C5_amended (fun _ => true) 1 0 cConnecting rfl

/-- Claim C7: calling `disconnect()` when the session is already
disconnected is a no-op — the state is unchanged and the trace holds only
the idempotent `loop_stop` / `disconnect` transport calls, never a
reconnect attempt. -/
theorem C7_theorem (s : MQTTClient) (h1 : s.connected = false)
    (h2 : s.sockOpen = false) :
    s.connected = false ∧
      disconnect s = (s, [Effect.loopStopCall, Effect.disconnectCall]) ∧
      Effect.reconnectCall ∉ (disconnect s).2 := by
  refine ⟨h1, ?_, ?_⟩
  · simp [disconnect, h2]
  · simp [disconnect, h2]

/-- Claim C7 witness: the statement at the freshly constructed
(disconnected) client. -/
theorem C7_witness :
    defaultClient.connected = false ∧
      disconnect defaultClient =
        (defaultClient, [Effect.loopStopCall, Effect.disconnectCall]) ∧
      Effect.reconnectCall ∉ (disconnect defaultClient).2 :=
  C7_theorem defaultClient rfl rfl

/-- Claim C8: no public operation propagates an exception — when the
underlying transport call raises, `publish` and `subscribe` return the
failure outcome `false` and `connect` returns `False`; an inbound message
whose payload fails to decode is reported as a decode-error event with
the client state unchanged, so the dispatcher does not crash. -/
theorem C8_theorem (s : MQTTClient) (t : Option String) (topic m e : String) :
    (publish s (.raise e) t m).1 = false ∧
      (subscribe s (.raise e) t).1 = false ∧
      (connect s false).1 = false ∧
      onMessage s topic (.error e) = (s, .decodeError e) := by
  refine ⟨?_, rfl, rfl, rfl⟩
  cases hc : s.connected <;> simp [publish, hc]

/-- Claim C9: omitting the topic (passing `None`) makes `publish` and
`subscribe` behave identically to passing the client's configured default
topic explicitly, for every transport behaviour. -/
theorem C9_theorem (s : MQTTClient) (tr : TransportOutcome) (m : String) :
    publish s tr none m = publish s tr (some s.topic) m ∧
      subscribe s tr none = subscribe s tr (some s.topic) := by
  refine ⟨?_, ?_⟩ <;> cases tr <;> simp [publish, subscribe, effTopic, ite_self]

/-- Claim C10: an empty-string topic argument is substituted by the
configured default topic exactly like `None` (full result-and-trace
equality for every transport answer); and the empty-string topic is
unreachable — whenever the effective topic of a call is the empty string
(which needs the configured default itself empty), the underlying paho
call raises `ValueError`, the wrapper catches it, and both `publish` and
`subscribe` return the failure outcome with no frame sent. -/
theorem C10_theorem (s : MQTTClient) (tr ans : TransportOutcome)
    (t : Option String) (m : String) (h : effTopic s t = "") :
    publish s tr (some "") m = publish s tr none m ∧
      subscribe s tr (some "") = subscribe s tr none ∧
      (publishP s ans t m).1 = false ∧
      (subscribeP s t).1 = false := by
  have he : effTopic s (some "") = effTopic s none := by simp [effTopic]
  refine ⟨?_, ?_, ?_, ?_⟩
  · cases tr <;> simp [publish, he]
  · cases tr <;> simp [subscribe, he]
  · cases hc : s.connected <;> simp [publishP, publish, pahoPub, h, hc]
  · simp [subscribeP, subscribe, pahoSub, h]

/-- Claim C10 witness: the statement at a concrete connected client whose
configured default topic is the empty string, called with the
empty-string argument. -/
theorem C10_witness :
    publish cEmptyTopic (.ok .success) (some "") "hi" =
        publish cEmptyTopic (.ok .success) none "hi" ∧
      subscribe cEmptyTopic (.ok .success) (some "") =
        subscribe cEmptyTopic (.ok .success) none ∧
      (publishP cEmptyTopic (.ok .success) (some "") "hi").1 = false ∧
      (subscribeP cEmptyTopic (some "")).1 = false :=
  C10_theorem cEmptyTopic (.ok .success) (.ok .success) (some "") "hi"
    (by decide)
